import Mathlib

/-!
Verification of the runtime-configuration reconciliation and request-dispatch
engine of the traefik repository, together with its file provider
(src/provider/file.go) and rancher provider (src/unnamed/part_001).

The router manager, rule compiler, middleware builder, service manager and
runtime-configuration validation are not present under src/ (only their tests
in src/pkg/server/router/router_test.go are), so those components are
modelled from the specification (spec.md §3, §4.1, §4.2, §4.3, §4.4, §6, §7);
each such definition carries a doc comment saying so.  The file provider and
the rancher provider are translated directly from the source.
-/

/-- String split on a single separator character, mirroring Go
`strings.Split` for one-character separators: the result always has at
least one element, and splitting the empty string yields `[""]`. -/
def splitOnChar (c : Char) : List Char → List (List Char)
  | [] => [[]]
  | x :: xs =>
    let r := splitOnChar c xs
    if x = c then [] :: r
    else
      match r with
      | [] => [[x]]
      | y :: ys => (x :: y) :: ys

/-- Split a string on a single separator character. -/
def strSplit (c : Char) (s : String) : List String :=
  (splitOnChar c s.toList).map String.mk

/-- Lexicographic strict order on character lists, mirroring Go string
comparison. -/
def charListLt : List Char → List Char → Bool
  | [], [] => false
  | [], _ :: _ => true
  | _ :: _, [] => false
  | x :: xs, y :: ys => if x = y then charListLt xs ys else x < y

/-- Lexicographic strict order on strings. -/
def strLtb (a b : String) : Bool := charListLt a.toList b.toList

/-- Scan a character list up to the first occurrence of `c`, returning the
characters before it and the characters after it. -/
def takeUntil (c : Char) : List Char → Option (List Char × List Char)
  | [] => none
  | x :: xs =>
    if x = c then some ([], xs)
    else
      match takeUntil c xs with
      | some (pre, post) => some (x :: pre, post)
      | none => none

/-- Back-tick character, used as the argument quote of the rule grammar. -/
def backTick : Char := Char.ofNat 96

namespace Traefik

/-- Modelled from the spec (§4.1, §6): an HTTP request as seen by the rule
matcher and the middlewares.  `credentials` is the decoded basic-auth
`user:password` pair carried by the request, if any; `host` is the host
already normalized by the request decorator. -/
structure Request where
  host : String
  path : String
  method : String
  headers : List (String × String)
  credentials : Option String
deriving Repr, DecidableEq

/-- Modelled from the spec: an HTTP response, reduced to its status code. -/
structure Response where
  status : Nat
deriving Repr, DecidableEq

/-- Modelled from the spec (§4.3): a handler consumes a request and yields a
response together with the request as last mutated by the middleware chain
(Go handlers mutate the request in place; the tests inspect the mutated
request after serving). -/
abbrev Handler := Request → Response × Request

/-- Read a request header; absent headers read as the empty string, as with
Go `Header.Get`. -/
def getHeader (hs : List (String × String)) (k : String) : String :=
  match hs.lookup k with
  | some v => v
  | none => ""

/-- Set a request header, replacing an existing value. -/
def setHeader (hs : List (String × String)) (k v : String) : List (String × String) :=
  match hs with
  | [] => [(k, v)]
  | (k', v') :: rest => if k' = k then (k, v) :: rest else (k', v') :: setHeader rest k v

/-- Modelled from the spec (§9): the compile result of a router rule as a
sum-typed AST interpreted over requests. -/
inductive Matcher where
  | host (arg : String)
  | path (arg : String)
  | method (arg : String)
deriving Repr, DecidableEq

/-- Interpretation of a compiled matcher as a request predicate. -/
def matchesReq (m : Matcher) (req : Request) : Bool :=
  match m with
  | .host arg => req.host == arg
  | .path arg => req.path == arg
  | .method arg => req.method == arg

/-- Parse a single term `MatcherName(` of the rule grammar with one
back-tick-quoted argument, yielding the matcher name and the argument. -/
def parseTerm (rule : String) : Option (String × String) :=
  match takeUntil '(' rule.toList with
  | none => none
  | some (mname, rest) =>
    match takeUntil backTick rest with
    | none => none
    | some (beforeArg, rest2) =>
      if beforeArg ≠ [] then none
      else
        match takeUntil backTick rest2 with
        | none => none
        | some (arg, rest3) =>
          if rest3 = [')'] then some (String.mk mname, String.mk arg) else none

/-- Modelled from the spec (§4.1): the rule compiler, restricted to the
single-term rules exercised by the claims, with exact-match semantics for
`Host`, `Path` and `Method` (hosts are modelled as already lower-cased by
the request decorator).  Any other matcher name fails compilation, covering
both the unknown-matcher error and, in this model, the matchers whose
regular expressions fail to compile.  Compilation failure is surfaced on
the owning router. -/
def compileRule (rule : String) : Except String Matcher :=
  match parseTerm rule with
  | none => .error "error while parsing rule"
  | some (m, arg) =>
    if m = "Host" then .ok (.host arg)
    else if m = "Path" then .ok (.path arg)
    else if m = "Method" then .ok (.method arg)
    else .error ("unknown matcher: " ++ m)

/-- Modelled from the spec (§3, §4.3): a middleware is a tagged variant with
its parameter record; the claims exercise the request-header injector and
basic authentication. -/
inductive Middleware where
  | headers (customRequestHeaders : List (String × String))
  | basicAuth (users : List String)
deriving Repr, DecidableEq

/-- Modelled from the spec (§4.3): a middleware wraps an inner handler.  The
header middleware adds its custom request headers and forwards; basic auth
forwards only when the request carries credentials listed in `users`, and
otherwise replies 401 without invoking the inner handler. -/
def applyMiddleware (m : Middleware) (next : Handler) : Handler :=
  match m with
  | .headers custom => fun req =>
      next { req with headers := custom.foldl (fun hs kv => setHeader hs kv.1 kv.2) req.headers }
  | .basicAuth users => fun req =>
      match req.credentials with
      | some cred => if users.contains cred then next req else ({ status := 401 }, req)
      | none => ({ status := 401 }, req)

/-- Modelled from the spec (§4.3): wrapping composition for middlewares
`[m1, m2, …, mN]` around a service handler, the first named middleware
being the outermost wrapper. -/
def buildChain (ms : List Middleware) (svc : Handler) : Handler :=
  ms.foldr applyMiddleware svc

/-- Modelled from the spec (§3): one upstream server of a load balancer. -/
structure Server where
  url : String
deriving Repr, DecidableEq

/-- Modelled from the spec (§3): the load-balancer body of a service. -/
structure LoadBalancerService where
  servers : List Server
deriving Repr, DecidableEq

/-- Modelled from the spec (§3): a service definition; `loadBalancer = none`
models a definition whose load-balancer body is missing and no other
variant is set. -/
structure Service where
  loadBalancer : Option LoadBalancerService
deriving Repr, DecidableEq

/-- Modelled from the spec (§4.2, §7): the handler built for a load-balanced
pool.  A successful upstream round-trip is abstracted as status 200 (the
test backend answers 200); a pool with zero servers answers 503. -/
def serviceHandle (servers : List Server) : Handler := fun req =>
  if servers.isEmpty then ({ status := 503 }, req) else ({ status := 200 }, req)

/-- Modelled from the spec (§3): a router definition.  `priority = 0` is the
sentinel meaning "derive the priority from the rule length". -/
structure Router where
  entryPoints : List String
  rule : String
  service : String
  middlewares : List String
  priority : Nat
deriving Repr, DecidableEq

/-- Modelled from the spec (§3): the merged dynamic configuration, as
name-keyed association lists. -/
structure Configuration where
  routers : List (String × Router)
  services : List (String × Service)
  middlewares : List (String × Middleware)
deriving Repr, DecidableEq

/-- Modelled from the spec (§6): the provider namespace of a qualified
`localName@providerName` name, if the name is qualified. -/
def providerOf (owner : String) : Option String :=
  match strSplit '@' owner with
  | [_, p] => some p
  | _ => none

/-- Modelled from the spec (§6): name-reference resolution.  A reference that
is already qualified (`localName@providerName`) is used as is, across
provider namespaces; an unqualified reference is resolved within the
owner's provider namespace. -/
def qualify (owner ref : String) : String :=
  if (strSplit '@' ref).length ≥ 2 then ref
  else
    match providerOf owner with
    | some p => ref ++ "@" ++ p
    | none => ref

/-- Modelled from the spec (§4.3): resolve a router's ordered middleware
names through the middleware map; an unresolved name fails the whole
chain. -/
def resolveMiddlewares (mmap : List (String × Middleware)) (owner : String)
    (names : List String) : Option (List Middleware) :=
  names.mapM (fun n => mmap.lookup (qualify owner n))

/-- Modelled from the spec (§3, §4.1): the effective priority of a router;
`0` derives the priority from the rule length. -/
def effPriority (r : Router) : Nat :=
  if r.priority = 0 then r.rule.length else r.priority

/-- Modelled from the spec (§4.4): one enabled router as inserted into the
per-entry-point match structure: its name, effective priority, textual
rule, compiled matcher, resolved middleware chain and upstream pool. -/
structure Entry where
  name : String
  priority : Nat
  rule : String
  matcher : Matcher
  middlewares : List Middleware
  servers : List Server
deriving Repr, DecidableEq

/-- Handler of an enabled router: its service handler wrapped by its
middleware chain. -/
def entryHandle (e : Entry) : Handler :=
  buildChain e.middlewares (serviceHandle e.servers)

/-- Modelled from the spec (§7): the validation status of a service; only a
missing load-balancer body yields an error (an empty pool is a warning, not
an error). -/
def serviceErrOf (s : Service) : Option String :=
  match s.loadBalancer with
  | none => some "the service does not have any type defined"
  | some _ => none

/-- Modelled from the spec (§4.4 step 4, §7): build one router, or report the
error that disables it: a rule that does not compile, an unresolved
middleware name, an unresolved service reference, or a reference to a
disabled (broken) service. -/
def buildRouter (c : Configuration) (name : String) (r : Router) : Except String Entry :=
  match compileRule r.rule with
  | .error e => .error e
  | .ok m =>
    match resolveMiddlewares c.middlewares name r.middlewares with
    | none => .error "middleware does not exist"
    | some ms =>
      match c.services.lookup (qualify name r.service) with
      | none => .error "the service does not exist"
      | some svc =>
        match svc.loadBalancer with
        | none => .error "the referenced service is disabled"
        | some lb =>
          .ok { name := name, priority := effPriority r, rule := r.rule, matcher := m,
                middlewares := ms, servers := lb.servers }

/-- Modelled from the spec (§3, §7): the `Err` annotation of a router in the
runtime configuration; `none` means the router is enabled. -/
def routerErr (c : Configuration) (n : String) (r : Router) : Option String :=
  match buildRouter c n r with
  | .error e => some e
  | .ok _ => none

/-- Modelled from the spec (§8): the number of elements of the snapshot
annotated with an error. -/
def errorCount (c : Configuration) : Nat :=
  (c.services.filter (fun p => (serviceErrOf p.2).isSome)).length +
  (c.routers.filter (fun p => (routerErr c p.1 p.2).isSome)).length

/-- Modelled from the spec (§3, §4.4 step 1): a router is collected for entry
point `ep` when its `entryPoints` list is empty (meaning every declared
entry point) or lists `ep`. -/
def selectRouter (ep : String) (r : Router) : Bool :=
  r.entryPoints.isEmpty || r.entryPoints.contains ep

/-- Routers collected for one entry point. -/
def routersFor (c : Configuration) (ep : String) : List (String × Router) :=
  c.routers.filter (fun p => selectRouter ep p.2)

/-- Build the entry of one router, or `none` when the router is disabled. -/
def entryOf (c : Configuration) (nr : String × Router) : Option Entry :=
  match buildRouter c nr.1 nr.2 with
  | .ok e => some e
  | .error _ => none

/-- Enabled entries of one entry point, in configuration order. -/
def buildEntries (c : Configuration) (ep : String) : List Entry :=
  (routersFor c ep).filterMap (entryOf c)

/-- Modelled from the spec (§4.1): `a` sorts no later than `b` when `a` has
the larger effective priority, ties broken by textual rule descending then
router name ascending. -/
def entryLE (a b : Entry) : Bool :=
  if a.priority ≠ b.priority then decide (b.priority < a.priority)
  else if a.rule ≠ b.rule then strLtb b.rule a.rule
  else !(strLtb b.name a.name)

/-- Insertion into a list sorted by `entryLE`. -/
def insertEntry (a : Entry) : List Entry → List Entry
  | [] => [a]
  | b :: rest => if entryLE a b then a :: b :: rest else b :: insertEntry a rest

/-- Insertion sort by `entryLE`. -/
def sortEntries : List Entry → List Entry
  | [] => []
  | a :: rest => insertEntry a (sortEntries rest)

/-- Modelled from the spec (§4.4 step 5): the match structure of one entry
point, its enabled routers in sorted priority order. -/
def enabledRouters (c : Configuration) (ep : String) : List Entry :=
  sortEntries (buildEntries c ep)

/-- Modelled from the spec (§4.4, §2): the outcome of dispatching one request:
the response, the request as last mutated by the traversed middlewares, and
the `RouterName` recorded in the access-log context of the request (`none`
when no router matched). -/
structure ServeResult where
  response : Response
  finalRequest : Request
  routerName : Option String
deriving Repr, DecidableEq

/-- Modelled from the spec (§4.4 step 5, §7): dispatch of one request on one
entry point: the first router in sorted priority order whose compiled rule
matches wins, its name is recorded in the access-log context, and its
handler serves; with no match the response is 404. -/
def serve (c : Configuration) (ep : String) (req : Request) : ServeResult :=
  match (enabledRouters c ep).find? (fun e => matchesReq e.matcher req) with
  | some e =>
    let out := entryHandle e req
    { response := out.1, finalRequest := out.2, routerName := some e.name }
  | none => { response := { status := 404 }, finalRequest := req, routerName := none }

end Traefik

namespace FileProvider

/-- From src/provider/file.go: a `types.ConfigMessage` as sent on the
configuration channel; `configuration` is `none` when `loadFileConfig`
failed to decode the file (the Go code then sends a nil configuration). -/
structure ConfigMessage (α : Type) where
  providerName : String
  configuration : Option α
deriving Repr, DecidableEq

/-- From src/provider/file.go `hashFile`: read the file and hash its bytes.
The read outcome is modelled as `Option (List Nat)` (`none` is a read
error) and the sha256 hex digest is modelled as the parameter `hash`,
since the cryptographic hash itself is library code outside this
repository. -/
def hashFile (hash : List Nat → String) (read : Option (List Nat)) : Except Unit String :=
  match read with
  | none => .error ()
  | some bytes => .ok (hash bytes)

/-- From src/provider/file.go `loadFileConfig`: decode the file into a
configuration, `none` on a decoding error.  The TOML decoder is modelled as
the parameter `decode`. -/
def loadFileConfig {α : Type} (decode : List Nat → Option α) (read : Option (List Nat)) :
    Option α :=
  match read with
  | none => none
  | some bytes => decode bytes

/-- From src/provider/file.go `Provide`, lines 41-65: one iteration of the
watch loop.  The loop state is the last recorded hash; `read` is the file
content seen by this poll.  The iteration recomputes the file hash and,
when hashing succeeded and the new hash differs from the recorded one,
sends one `ConfigMessage` and records the new hash; otherwise it sends
nothing and leaves the recorded hash unchanged, then sleeps for the fixed
polling interval. -/
def watchStep {α : Type} (hash : List Nat → String) (decode : List Nat → Option α)
    (read : Option (List Nat)) (fileHash : String) :
    String × Option (ConfigMessage α) :=
  match hashFile hash read with
  | .error _ => (fileHash, none)
  | .ok newFileHash =>
    if newFileHash ≠ fileHash then
      (newFileHash, some { providerName := "file", configuration := loadFileConfig decode read })
    else (fileHash, none)

/-- From src/provider/file.go `Provide`: the watch loop run over a finite
sequence of polls, collecting the messages sent on the configuration
channel. -/
def watchRun {α : Type} (hash : List Nat → String) (decode : List Nat → Option α) :
    List (Option (List Nat)) → String → List (ConfigMessage α)
  | [], _ => []
  | read :: rest, fileHash =>
    let step := watchStep hash decode read fileHash
    match step.2 with
    | some m => m :: watchRun hash decode rest step.1
    | none => watchRun hash decode rest step.1

end FileProvider

namespace Rancher

/-- From src/unnamed/part_001: a `config.Server` of an HTTP load balancer. -/
structure Server where
  url : String
  port : String
  scheme : String
deriving Repr, DecidableEq

/-- From src/unnamed/part_001: `config.Server.SetDefaults` is not under src/;
modelled from the spec's configuration model with the default upstream
scheme `http` and everything else zero-valued. -/
def defaultServer : Server := { url := "", port := "", scheme := "http" }

/-- From src/unnamed/part_001: an HTTP `config.LoadBalancerService`, reduced
to its server pool (the only field the provider reads or writes). -/
structure LoadBalancerService where
  servers : List Server
deriving Repr, DecidableEq

/-- From src/unnamed/part_001: a `config.TCPServer`. -/
structure TCPServer where
  address : String
  port : String
deriving Repr, DecidableEq

/-- From src/unnamed/part_001: a `config.TCPLoadBalancerService`. -/
structure TCPLoadBalancerService where
  servers : List TCPServer
deriving Repr, DecidableEq

/-- From src/unnamed/part_001: a `config.TCPService`; the provider always
dereferences the load balancer, which is modelled as always present. -/
structure TCPService where
  loadBalancer : TCPLoadBalancerService
deriving Repr, DecidableEq

/-- From src/unnamed/part_001: a `config.Service` as decoded from labels; the
provider always dereferences the load balancer, which is modelled as
always present. -/
structure HTTPService where
  loadBalancer : LoadBalancerService
deriving Repr, DecidableEq

/-- From src/unnamed/part_001: the TCP half of a decoded label
configuration.  Routers are kept as names only; the provider's control
flow reads only their number. -/
structure TCPConfiguration where
  routers : List String
  services : List (String × TCPService)
deriving Repr, DecidableEq

/-- From src/unnamed/part_001: the HTTP half of a decoded label
configuration. -/
structure HTTPConfiguration where
  routers : List String
  middlewares : List String
  services : List (String × HTTPService)
deriving Repr, DecidableEq

/-- From src/unnamed/part_001: a whole decoded label configuration
(`confFromLabel`). -/
structure LabelConfiguration where
  tcp : TCPConfiguration
  http : HTTPConfiguration
deriving Repr, DecidableEq

/-- From src/unnamed/part_001: the `rancherData.ExtraConf` fields read by
`keepService`. -/
structure ExtraConf where
  enable : Bool
  tags : List String
deriving Repr, DecidableEq

/-- From src/unnamed/part_001: one rancher service (`rancherData`). -/
structure RancherData where
  name : String
  port : String
  containers : List String
  extraConf : ExtraConf
  health : String
  state : String
deriving Repr, DecidableEq

/-- From src/unnamed/part_001: the provider fields read by `keepService`.
`matchConstraints` models the `MatchConstraints` method of the embedded
base provider, which is not under src/. -/
structure Provider where
  enableServiceHealthFilter : Bool
  matchConstraints : List String → Bool

/-- Health-state constants of the rancher package; their definitions are not
under src/ and follow the rancher health states the provider filters on. -/
def healthy : String := "healthy"

/-- Health-state constant, see `healthy`. -/
def updatingHealthy : String := "updating-healthy"

/-- Service-state constant, see `healthy`. -/
def active : String := "active"

/-- Service-state constant, see `healthy`. -/
def updatingActive : String := "updating-active"

/-- Service-state constant, see `healthy`. -/
def upgraded : String := "upgraded"

/-- Service-state constant, see `healthy`. -/
def upgrading : String := "upgrading"

/-- From src/unnamed/part_001 `keepService`: a service is kept when it is
enabled, satisfies the provider's constraints and, when the health filter
is on, has an acceptable health and state. -/
def keepService (p : Provider) (s : RancherData) : Bool :=
  if !s.extraConf.enable then false
  else if !(p.matchConstraints s.extraConf.tags) then false
  else if p.enableServiceHealthFilter then
    if s.health ≠ "" && s.health ≠ healthy && s.health ≠ updatingHealthy then false
    else if s.state ≠ "" && s.state ≠ active && s.state ≠ updatingActive
        && s.state ≠ upgraded && s.state ≠ upgrading then false
    else true
  else true

/-- From src/unnamed/part_001 `getServicePort`: derive a port from the
service's `Port` field, of the shape `[host:]port[/proto]`. -/
def getServicePort (data : RancherData) : String :=
  let rawPort := (strSplit '/' data.port).headD ""
  let hostPort := strSplit ':' rawPort
  if hostPort.length ≥ 2 then hostPort.getD 1 ""
  else if hostPort.length > 0 && hostPort.headD "" ≠ "" then hostPort.headD ""
  else rawPort

/-- From src/unnamed/part_001 `getLBServerPort`: the port of the first
declared load-balancer server, or the empty string if there is none. -/
def getLBServerPort (lb : LoadBalancerService) : String :=
  match lb.servers with
  | [] => ""
  | s :: _ => s.port

/-- Go `net.JoinHostPort`: join a host and a port with a colon, bracketing
hosts that themselves contain a colon. -/
def joinHostPort (host port : String) : String :=
  if host.toList.contains ':' then "[" ++ host ++ "]:" ++ port else host ++ ":" ++ port

/-- Zero the `Port` of the first server, as the source does before building
the final server list. -/
def zeroFirstPort : List Server → List Server
  | [] => []
  | s :: rest => { s with port := "" } :: rest

/-- From src/unnamed/part_001 `addServers`: resolve the port (the first
declared server's port wins over the port derived from the service),
insert a default server into an empty pool, fail with "port is missing"
when no port resolves, and otherwise replace the pool with one server per
container IP whose URL joins the first server's scheme, the container IP
and the resolved port. -/
def addServers (service : RancherData) (lb : LoadBalancerService) :
    Except String LoadBalancerService :=
  let serverPort := getLBServerPort lb
  let port0 := getServicePort service
  let servers0 := if lb.servers.length = 0 then [defaultServer] else lb.servers
  let port := if serverPort ≠ "" then serverPort else port0
  let servers1 := if serverPort ≠ "" then zeroFirstPort servers0 else servers0
  if port = "" then .error "port is missing"
  else
    .ok { servers := service.containers.map (fun containerIP =>
      { url := (servers1.headD defaultServer).scheme ++ "://" ++ joinHostPort containerIP port,
        port := "", scheme := "" }) }

/-- Zero the `Port` of the first TCP server. -/
def zeroFirstPortTCP : List TCPServer → List TCPServer
  | [] => []
  | s :: rest => { s with port := "" } :: rest

/-- From src/unnamed/part_001 `addServerTCP`: the TCP analogue of
`addServers`; the final servers carry only the joined address. -/
def addServerTCP (service : RancherData) (lb : TCPLoadBalancerService) :
    Except String TCPLoadBalancerService :=
  let serverPort :=
    match lb.servers with
    | [] => ""
    | s :: _ => s.port
  let port0 := getServicePort service
  let servers0 := if lb.servers.length = 0 then [({ address := "", port := "" } : TCPServer)]
    else lb.servers
  let port := if serverPort ≠ "" then serverPort else port0
  let _servers1 := if serverPort ≠ "" then zeroFirstPortTCP servers0 else servers0
  if port = "" then .error "port is missing"
  else
    .ok { servers := service.containers.map (fun containerIP =>
      { address := joinHostPort containerIP port, port := "" }) }

/-- Apply `addServerTCP` to every declared TCP service, stopping at the
first error, as the range loop of `buildTCPServiceConfiguration` does. -/
def mapServicesTCP (service : RancherData) :
    List (String × TCPService) → Except String (List (String × TCPService))
  | [] => .ok []
  | (n, ts) :: rest =>
    match addServerTCP service ts.loadBalancer with
    | .error e => .error e
    | .ok lb =>
      match mapServicesTCP service rest with
      | .error e => .error e
      | .ok rest' => .ok ((n, { loadBalancer := lb }) :: rest')

/-- From src/unnamed/part_001 `buildTCPServiceConfiguration`: when no TCP
service is declared, synthesize a default one named after the rancher
service with an empty load balancer, then add servers to every declared
TCP service. -/
def buildTCPServiceConfiguration (service : RancherData) (conf : TCPConfiguration) :
    Except String TCPConfiguration :=
  let conf :=
    if conf.services.length = 0 then
      { conf with services :=
          [(service.name, { loadBalancer := { servers := [] } })] }
    else conf
  match mapServicesTCP service conf.services with
  | .error e => .error e
  | .ok svcs => .ok { conf with services := svcs }

/-- Apply `addServers` to every declared HTTP service, stopping at the first
error, as the range loop of `buildServiceConfiguration` does. -/
def mapServicesHTTP (service : RancherData) :
    List (String × HTTPService) → Except String (List (String × HTTPService))
  | [] => .ok []
  | (n, hs) :: rest =>
    match addServers service hs.loadBalancer with
    | .error e => .error e
    | .ok lb =>
      match mapServicesHTTP service rest with
      | .error e => .error e
      | .ok rest' => .ok ((n, { loadBalancer := lb }) :: rest')

/-- From src/unnamed/part_001 `buildServiceConfiguration`: when no HTTP
service is declared, synthesize a default one named after the rancher
service with a defaulted empty load balancer, then add servers to every
declared HTTP service. -/
def buildServiceConfiguration (service : RancherData) (conf : HTTPConfiguration) :
    Except String HTTPConfiguration :=
  let conf :=
    if conf.services.length = 0 then
      { conf with services :=
          [(service.name, { loadBalancer := { servers := [] } })] }
    else conf
  match mapServicesHTTP service conf.services with
  | .error e => .error e
  | .ok svcs => .ok { conf with services := svcs }

/-- From src/unnamed/part_001 `buildConfiguration`, lines 19-66: processing
of one rancher service whose labels decoded to `confFromLabel`; `none`
means the service contributes nothing to the merged configuration.
`buildTCPRouters` and `buildHTTPRouters` model
`provider.BuildTCPRouterConfiguration` and
`provider.BuildRouterConfiguration` (router synthesis, not under src/) as
parameters.  When at least one TCP router or TCP service is declared, the
TCP side is built; if moreover no HTTP router, middleware or service is
declared, the configuration is kept as is, without building the HTTP side;
otherwise the HTTP side is built as well. -/
def processService (p : Provider) (buildTCPRouters : TCPConfiguration → TCPConfiguration)
    (buildHTTPRouters : HTTPConfiguration → HTTPConfiguration)
    (service : RancherData) (confFromLabel : LabelConfiguration) :
    Option LabelConfiguration :=
  if !keepService p service then none
  else if confFromLabel.tcp.routers.length > 0 || confFromLabel.tcp.services.length > 0 then
    match buildTCPServiceConfiguration service confFromLabel.tcp with
    | .error _ => none
    | .ok tcp1 =>
      let tcp2 := buildTCPRouters tcp1
      if confFromLabel.http.routers.length = 0 && confFromLabel.http.middlewares.length = 0
          && confFromLabel.http.services.length = 0 then
        some { confFromLabel with tcp := tcp2 }
      else
        match buildServiceConfiguration service confFromLabel.http with
        | .error _ => none
        | .ok http1 => some { tcp := tcp2, http := buildHTTPRouters http1 }
  else
    match buildServiceConfiguration service confFromLabel.http with
    | .error _ => none
    | .ok http1 => some { confFromLabel with http := buildHTTPRouters http1 }

end Rancher

namespace Traefik

/-- Test service `foo-service` with one upstream server, as in
src/pkg/server/router/router_test.go. -/
def fooService : Service :=
  { loadBalancer := some { servers := [{ url := "http://backend" }] } }

/-- Request `GET http://foo.bar/` without credentials. -/
def noCredsReq : Request :=
  { host := "foo.bar", path := "/", method := "GET", headers := [], credentials := none }

/-- Request `GET http://bar.foo/` without credentials. -/
def barFooReq : Request :=
  { host := "bar.foo", path := "/", method := "GET", headers := [], credentials := none }

/-- Header middleware injecting `X-Apero: beer`. -/
def aperoHeaders : Middleware := .headers [("X-Apero", "beer")]

/-- Basic-auth middleware with the single user `toto:titi`. -/
def totoAuth : Middleware := .basicAuth ["toto:titi"]

/-- Router of the `headers > auth` middleware-order scenario. -/
def headersAuthRouter : Router :=
  { entryPoints := ["web"], rule := "Host(`foo.bar`)", service := "foo-service",
    middlewares := ["headers-middle", "auth-middle"], priority := 0 }

/-- Router of the `auth > headers` middleware-order scenario. -/
def authHeadersRouter : Router :=
  { entryPoints := ["web"], rule := "Host(`foo.bar`)", service := "foo-service",
    middlewares := ["auth-middle", "headers-middle"], priority := 0 }

/-- Configuration of the `headers > auth` middleware-order scenario. -/
def headersAuthConfig : Configuration :=
  { routers := [("foo", headersAuthRouter)],
    services := [("foo-service", fooService)],
    middlewares := [("headers-middle", aperoHeaders), ("auth-middle", totoAuth)] }

/-- Configuration of the `auth > headers` middleware-order scenario. -/
def authHeadersConfig : Configuration :=
  { routers := [("foo", authHeadersRouter)],
    services := [("foo-service", fooService)],
    middlewares := [("headers-middle", aperoHeaders), ("auth-middle", totoAuth)] }

/-- Router matching `foo.bar` with explicit priority 10. -/
def priorityTenRouter : Router :=
  { entryPoints := ["web"], rule := "Host(`foo.bar`)", service := "foo-service",
    middlewares := [], priority := 10 }

/-- Router matching `foo.bar` with explicit priority 20. -/
def priorityTwentyRouter : Router :=
  { entryPoints := ["web"], rule := "Host(`foo.bar`)", service := "foo-service",
    middlewares := [], priority := 20 }

/-- Two routers matching `foo.bar` with priorities 10 and 20. -/
def priorityConfig : Configuration :=
  { routers := [("foo", priorityTenRouter), ("bar", priorityTwentyRouter)],
    services := [("foo-service", fooService)],
    middlewares := [] }

/-- Entry built for the priority-20 router of `priorityConfig`. -/
def priorityTwentyEntry : Entry :=
  { name := "bar", priority := 20, rule := "Host(`foo.bar`)", matcher := .host "foo.bar",
    middlewares := [], servers := [{ url := "http://backend" }] }

/-- Entry built for the priority-10 router of `priorityConfig`. -/
def priorityTenEntry : Entry :=
  { name := "foo", priority := 10, rule := "Host(`foo.bar`)", matcher := .host "foo.bar",
    middlewares := [], servers := [{ url := "http://backend" }] }

/-- Router matching `foo.bar` backed by `foo-service`, no middleware. -/
def fooRouter : Router :=
  { entryPoints := ["web"], rule := "Host(`foo.bar`)", service := "foo-service",
    middlewares := [], priority := 0 }

/-- Router referencing the nonexistent service `wrong-service`. -/
def unknownSvcRouter : Router :=
  { entryPoints := ["web"], rule := "Host(`bar.foo`)", service := "wrong-service",
    middlewares := [], priority := 0 }

/-- Configuration of the unknown-service scenario: router `foo` references
`wrong-service`, router `bar` references the intact `foo-service`. -/
def unknownSvcConfig : Configuration :=
  { routers := [("foo", unknownSvcRouter), ("bar", fooRouter)],
    services := [("foo-service", fooService)],
    middlewares := [] }

/-- Configuration of the broken-service scenario: `foo-service` has no
load-balancer body and router `bar` references it. -/
def brokenSvcConfig : Configuration :=
  { routers := [("bar", fooRouter)],
    services := [("foo-service", { loadBalancer := none })],
    middlewares := [] }

/-- Router with an empty `EntryPoints` list. -/
def defaultEpRouter : Router :=
  { entryPoints := [], rule := "Host(`foo.bar`)", service := "foo-service",
    middlewares := [], priority := 0 }

/-- Configuration whose only router declares no entry point. -/
def defaultEpConfig : Configuration :=
  { routers := [("foo", defaultEpRouter)],
    services := [("foo-service", fooService)],
    middlewares := [] }

/-- Router qualified under provider-1 referencing a service qualified under
provider-2. -/
def crossProviderRouter : Router :=
  { entryPoints := ["web"], rule := "Host(`foo.bar`)", service := "provider-2@foo-service",
    middlewares := [], priority := 0 }

/-- Configuration of the cross-provider reference scenario. -/
def crossProviderConfig : Configuration :=
  { routers := [("provider-1@foo", crossProviderRouter)],
    services := [("provider-2@foo-service", fooService)],
    middlewares := [] }

/-- Router whose rule names the unknown matcher `WrongRule`. -/
def wrongRuleRouter : Router :=
  { entryPoints := ["web"], rule := "WrongRule(`bar.foo`)", service := "foo-service",
    middlewares := [], priority := 0 }

/-- Configuration with one failing rule (`foo`) and one intact sibling
(`bar`). -/
def wrongRuleConfig : Configuration :=
  { routers := [("foo", wrongRuleRouter), ("bar", fooRouter)],
    services := [("foo-service", fooService)],
    middlewares := [] }

end Traefik

namespace Rancher

/-- Port resolved by `addServers`: the first declared server's port wins over
the port derived from the service. -/
def resolvedPort (service : RancherData) (lb : LoadBalancerService) : String :=
  if getLBServerPort lb ≠ "" then getLBServerPort lb else getServicePort service

/-- Scheme used by `addServers` for the rebuilt servers: the first declared
server's scheme, or the default scheme when the pool was empty. -/
def resolvedScheme (lb : LoadBalancerService) : String :=
  match lb.servers with
  | [] => defaultServer.scheme
  | s :: _ => s.scheme

/-- Sample provider: health filter off, all constraints match. -/
def sampleProvider : Provider :=
  { enableServiceHealthFilter := false, matchConstraints := fun _ => true }

/-- Sample rancher service with two containers and port `80/tcp`. -/
def sampleData : RancherData :=
  { name := "svc", port := "80/tcp", containers := ["10.0.0.1", "10.0.0.2"],
    extraConf := { enable := true, tags := [] }, health := "", state := "" }

/-- Sample empty HTTP load balancer. -/
def sampleLB : LoadBalancerService := { servers := [] }

/-- Sample decoded label configuration declaring one TCP router and nothing
else. -/
def sampleTCPOnlyConf : LabelConfiguration :=
  { tcp := { routers := ["svc-tcp"], services := [] },
    http := { routers := [], middlewares := [], services := [] } }

end Rancher

namespace Traefik

/-- Find over a decomposed list: when everything before `e` fails the
predicate and `e` satisfies it, `e` is found. -/
theorem find?_append_cons {α : Type} (p : α → Bool) (pre : List α) (e : α) (post : List α)
    (hpre : ∀ x ∈ pre, p x = false) (he : p e = true) :
    (pre ++ e :: post).find? p = some e := by
  induction pre with
  | nil => simpa using List.find?_cons_of_pos post he
  | cons y ys ih =>
    have hy : p y = false := hpre y (List.mem_cons_self y ys)
    rw [List.cons_append, List.find?_cons_of_neg _ (by simp [hy])]
    exact ih (fun x hx => hpre x (List.mem_cons_of_mem y hx))

/-- An earlier-sorting entry has the larger-or-equal effective priority. -/
theorem entryLE_le {a b : Entry} (h : entryLE a b = true) : b.priority ≤ a.priority := by
  unfold entryLE at h
  by_cases hp : a.priority = b.priority
  · exact hp ▸ Nat.le_refl _
  · simp only [hp, ne_eq, not_false_eq_true, if_true, decide_eq_true_eq] at h
    exact Nat.le_of_lt h

/-- A later-sorting entry has the smaller-or-equal effective priority. -/
theorem entryLE_false_le {a b : Entry} (h : entryLE a b = false) : a.priority ≤ b.priority := by
  unfold entryLE at h
  by_cases hp : a.priority = b.priority
  · exact hp ▸ Nat.le_refl _
  · simp only [hp, ne_eq, not_false_eq_true, if_true, decide_eq_false_iff_not] at h
    exact Nat.le_of_not_lt h

/-- Membership through sorted insertion. -/
theorem mem_insertEntry {x a : Entry} {l : List Entry} :
    x ∈ insertEntry a l ↔ x = a ∨ x ∈ l := by
  induction l with
  | nil => simp [insertEntry]
  | cons b rest ih =>
    cases hle : entryLE a b with
    | true =>
      simp only [insertEntry, hle, if_true, List.mem_cons]
    | false =>
      simp only [insertEntry, hle, Bool.false_eq_true, if_false, List.mem_cons, ih]
      tauto

/-- Sorted insertion preserves the priority-descending invariant. -/
theorem pairwise_insertEntry {a : Entry} {l : List Entry}
    (h : l.Pairwise (fun x y => y.priority ≤ x.priority)) :
    (insertEntry a l).Pairwise (fun x y => y.priority ≤ x.priority) := by
  induction l with
  | nil => simp [insertEntry]
  | cons b rest ih =>
    rcases List.pairwise_cons.mp h with ⟨hb, hrest⟩
    cases hle : entryLE a b with
    | true =>
      simp only [insertEntry, hle, if_true]
      refine List.pairwise_cons.mpr ⟨?_, h⟩
      intro z hz
      rcases List.mem_cons.mp hz with rfl | hz'
      · exact entryLE_le hle
      · exact Nat.le_trans (hb z hz') (entryLE_le hle)
    | false =>
      simp only [insertEntry, hle, Bool.false_eq_true, if_false]
      refine List.pairwise_cons.mpr ⟨?_, ih hrest⟩
      intro z hz
      rcases mem_insertEntry.mp hz with rfl | hz'
      · exact entryLE_false_le hle
      · exact hb z hz'

/-- The sorted match structure is priority-descending. -/
theorem pairwise_sortEntries (l : List Entry) :
    (sortEntries l).Pairwise (fun x y => y.priority ≤ x.priority) := by
  induction l with
  | nil => simp [sortEntries]
  | cons a rest ih => exact pairwise_insertEntry ih

/-- Sorting does not change membership. -/
theorem mem_sortEntries {x : Entry} {l : List Entry} : x ∈ sortEntries l ↔ x ∈ l := by
  induction l with
  | nil => simp [sortEntries]
  | cons a rest ih => simp [sortEntries, mem_insertEntry, ih]

/-- Inversion of a successful router build: every validation step passed and
the entry is determined by them. -/
theorem buildRouter_ok_inv {c : Configuration} {n : String} {r : Router} {e : Entry}
    (h : buildRouter c n r = .ok e) :
    ∃ m ms svc lb, compileRule r.rule = .ok m
      ∧ resolveMiddlewares c.middlewares n r.middlewares = some ms
      ∧ c.services.lookup (qualify n r.service) = some svc
      ∧ svc.loadBalancer = some lb
      ∧ e = { name := n, priority := effPriority r, rule := r.rule, matcher := m,
              middlewares := ms, servers := lb.servers } := by
  unfold buildRouter at h
  split at h
  · exact absurd h (by simp)
  next m hc =>
    split at h
    · exact absurd h (by simp)
    next ms hm =>
      split at h
      · exact absurd h (by simp)
      next svc hl =>
        split at h
        · exact absurd h (by simp)
        next lb hlb =>
          cases h
          exact ⟨m, ms, svc, lb, hc, hm, hl, hlb, rfl⟩

/-- A router whose validation steps all pass builds successfully. -/
theorem buildRouter_ok_of {c : Configuration} {n : String} {r : Router} {m : Matcher}
    {ms : List Middleware} {svc : Service} {lb : LoadBalancerService}
    (hc : compileRule r.rule = .ok m)
    (hm : resolveMiddlewares c.middlewares n r.middlewares = some ms)
    (hl : c.services.lookup (qualify n r.service) = some svc)
    (hlb : svc.loadBalancer = some lb) :
    buildRouter c n r =
      .ok { name := n, priority := effPriority r, rule := r.rule,
            matcher := m, middlewares := ms, servers := lb.servers } := by
  unfold buildRouter
  simp only [hc, hm, hl, hlb]

/-- A rule that fails to compile fails the router build with the same
error. -/
theorem buildRouter_error_of_rule {c : Configuration} {n : String} {r : Router} {err : String}
    (h : compileRule r.rule = .error err) : buildRouter c n r = .error err := by
  unfold buildRouter
  rw [h]

/-- The name of a built entry is the router's name. -/
theorem buildRouter_ok_name {c : Configuration} {n : String} {r : Router} {e : Entry}
    (h : buildRouter c n r = .ok e) : e.name = n := by
  rcases buildRouter_ok_inv h with ⟨m, ms, svc, lb, _, _, _, _, rfl⟩
  rfl

/-- A router referencing a service name absent from the snapshot is
annotated with an error. -/
theorem routerErr_isSome_of_lookup_none {c : Configuration} {n : String} {r : Router}
    (h : c.services.lookup (qualify n r.service) = none) :
    (routerErr c n r).isSome := by
  unfold routerErr
  cases hb : buildRouter c n r with
  | error e => simp
  | ok e =>
    rcases buildRouter_ok_inv hb with ⟨m, ms, svc, lb, _, _, hl, _, _⟩
    rw [h] at hl
    cases hl

/-- A router referencing a service with no load-balancer body is annotated
with an error. -/
theorem routerErr_isSome_of_broken_service {c : Configuration} {n : String} {r : Router}
    {svc : Service} (h : c.services.lookup (qualify n r.service) = some svc)
    (hlb : svc.loadBalancer = none) : (routerErr c n r).isSome := by
  unfold routerErr
  cases hb : buildRouter c n r with
  | error e => simp
  | ok e =>
    rcases buildRouter_ok_inv hb with ⟨m, ms, svc', lb, _, _, hl, hlb', _⟩
    rw [h] at hl
    cases hl
    rw [hlb] at hlb'
    cases hlb'

/-- Router validation reads only the service and middleware maps, never the
other routers. -/
theorem routerErr_frame (c : Configuration) (rs : List (String × Router)) (n : String)
    (r : Router) : routerErr { c with routers := rs } n r = routerErr c n r := by
  cases c
  rfl

/-- Entry building ignores a router's `entryPoints` (they are consumed by
the per-entry-point collection step only). -/
theorem buildRouter_entryPoints_irrel (c : Configuration) (n : String) (r : Router)
    (eps : List String) :
    buildRouter c n { r with entryPoints := eps } = buildRouter c n r := by
  cases r
  rfl

/-- Every entry of the match structure comes from a successfully built
router of the snapshot. -/
theorem entry_mem_buildEntries {c : Configuration} {ep : String} {e : Entry}
    (h : e ∈ buildEntries c ep) :
    ∃ p ∈ c.routers, buildRouter c p.1 p.2 = .ok e := by
  unfold buildEntries at h
  rcases List.mem_filterMap.mp h with ⟨p, hp, hpe⟩
  refine ⟨p, (List.mem_filter.mp hp).1, ?_⟩
  unfold entryOf at hpe
  cases hb : buildRouter c p.1 p.2 with
  | error err => rw [hb] at hpe; cases hpe
  | ok e' => rw [hb] at hpe; cases hpe; rfl

end Traefik

namespace Traefik

/-- C1: for every router with ordered middlewares `[m1, m2, …, mN]` and
service `S`, the built handler is the composition `m1(m2(…mN(S)…))`, so a
request traverses `m1` first; with middlewares `[headers, basicAuth]` a
request lacking credentials gets 401 and still carries the injected header
`X-Apero: beer`, while with the reversed order `[basicAuth, headers]` the
401 response is produced without the header being applied. -/
theorem middleware_chain_order :
    (∀ (m : Middleware) (ms : List Middleware) (svc : Handler) (req : Request),
      buildChain (m :: ms) svc req = applyMiddleware m (buildChain ms svc) req)
    ∧ (serve headersAuthConfig "web" noCredsReq).response.status = 401
    ∧ getHeader (serve headersAuthConfig "web" noCredsReq).finalRequest.headers "X-Apero"
        = "beer"
    ∧ (serve authHeadersConfig "web" noCredsReq).response.status = 401
    ∧ getHeader (serve authHeadersConfig "web" noCredsReq).finalRequest.headers "X-Apero"
        = "" := by
  refine ⟨fun m ms svc req => rfl, ?_, ?_, ?_, ?_⟩ <;> decide

/-- C6: a router qualified under one provider namespace may reference a
service qualified under a different provider namespace; the qualified
reference resolves across namespaces as is, and the cross-provider
scenario router `provider-1@foo` with service `provider-2@foo-service`
serves a matching request with 200. -/
theorem cross_provider_service_resolution :
    (∀ owner ref : String, (strSplit '@' ref).length ≥ 2 → qualify owner ref = ref)
    ∧ (serve crossProviderConfig "web" noCredsReq).response.status = 200
    ∧ (serve crossProviderConfig "web" noCredsReq).routerName = some "provider-1@foo" := by
  refine ⟨?_, by decide, by decide⟩
  intro owner ref h
  unfold qualify
  rw [if_pos h]

/-- Witness for C6 at the concrete cross-provider names. -/
theorem cross_provider_service_resolution_witness :
    qualify "provider-1@foo" "provider-2@foo-service" = "provider-2@foo-service" :=
  cross_provider_service_resolution.1 "provider-1@foo" "provider-2@foo-service" (by decide)

end Traefik

/-- Runs of the file-provider watch loop over polls whose hash never changes
send nothing. -/
theorem watchRun_unchanged_sends_nothing {α : Type} (hash : List Nat → String)
    (decode : List Nat → Option α) (reads : List (Option (List Nat))) (fileHash : String)
    (h : ∀ r ∈ reads, r.all (fun contents => hash contents == fileHash) = true) :
    FileProvider.watchRun hash decode reads fileHash = [] := by
  induction reads with
  | nil => rfl
  | cons r rest ih =>
    have hr := h r (List.mem_cons_self r rest)
    have hrest : ∀ x ∈ rest, x.all (fun contents => hash contents == fileHash) = true :=
      fun x hx => h x (List.mem_cons_of_mem r hx)
    cases r with
    | none =>
      simp only [FileProvider.watchRun, FileProvider.watchStep, FileProvider.hashFile]
      exact ih hrest
    | some c =>
      have hceq : hash c = fileHash := by simpa using hr
      simp only [FileProvider.watchRun, FileProvider.watchStep, FileProvider.hashFile, hceq,
        ne_eq, not_true_eq_false, if_false]
      exact ih hrest

/-- C8: one iteration of the file provider's watch loop sends a
`ConfigMessage` exactly when hashing succeeded and the newly computed hash
differs from the last recorded hash (then the new hash is recorded); while
the hash is unchanged no message is ever sent, over whole runs of the
polling loop as well. -/
theorem file_watch_sends_iff_hash_differs {α : Type} (hash : List Nat → String)
    (decode : List Nat → Option α) (read : Option (List Nat)) (fileHash : String) :
    ((FileProvider.watchStep hash decode read fileHash).2 ≠ none ↔
      ∃ contents, read = some contents ∧ hash contents ≠ fileHash)
    ∧ (∀ contents, read = some contents → hash contents ≠ fileHash →
        FileProvider.watchStep hash decode read fileHash =
          (hash contents, some { providerName := "file",
                                 configuration := FileProvider.loadFileConfig decode read }))
    ∧ (∀ reads : List (Option (List Nat)),
        (∀ r ∈ reads, r.all (fun contents => hash contents == fileHash) = true) →
        FileProvider.watchRun hash decode reads fileHash = []) := by
  refine ⟨?_, ?_, fun reads h => watchRun_unchanged_sends_nothing hash decode reads fileHash h⟩
  · cases read with
    | none => simp [FileProvider.watchStep, FileProvider.hashFile]
    | some c =>
      by_cases hne : hash c = fileHash
      · simp [FileProvider.watchStep, FileProvider.hashFile, hne]
      · simp [FileProvider.watchStep, FileProvider.hashFile, hne]
  · intro contents hc hne
    subst hc
    simp [FileProvider.watchStep, FileProvider.hashFile, hne]

/-- Witness for C8: a run over three polls that never change the recorded
hash sends nothing. -/
theorem file_watch_sends_iff_hash_differs_witness :
    FileProvider.watchRun (fun _ => "h") (fun _ => (none : Option Nat))
      [some [1], none, some [2]] "h" = [] :=
  (file_watch_sends_iff_hash_differs (fun _ => "h") (fun _ => (none : Option Nat))
    (some [1]) "h").2.2 [some [1], none, some [2]] (by decide)

/-- C9: for a rancher service whose decoded labels declare at least one TCP
router or TCP service and no HTTP routers, middlewares or services, the
per-service configuration keeps only the built TCP side: the HTTP side
stays as decoded (empty) and the HTTP service/router synthesis
(`buildServiceConfiguration`, `BuildRouterConfiguration`) is never
invoked, as the result does not depend on `buildHTTPRouters`. -/
theorem rancher_tcp_only_keeps_http_empty (p : Rancher.Provider)
    (buildTCPRouters : Rancher.TCPConfiguration → Rancher.TCPConfiguration)
    (buildHTTPRouters : Rancher.HTTPConfiguration → Rancher.HTTPConfiguration)
    (service : Rancher.RancherData) (conf : Rancher.LabelConfiguration)
    (hkeep : Rancher.keepService p service = true)
    (htcp : 0 < conf.tcp.routers.length ∨ 0 < conf.tcp.services.length)
    (hr : conf.http.routers = []) (hm : conf.http.middlewares = [])
    (hs : conf.http.services = []) :
    Rancher.processService p buildTCPRouters buildHTTPRouters service conf =
      (match Rancher.buildTCPServiceConfiguration service conf.tcp with
       | .error _ => none
       | .ok tcp1 => some { conf with tcp := buildTCPRouters tcp1 }) := by
  unfold Rancher.processService
  rw [hkeep]
  have hb : (decide (conf.tcp.routers.length > 0) || decide (conf.tcp.services.length > 0))
      = true := by
    rcases htcp with h | h <;> simp [h]
  simp only [Bool.not_true, Bool.false_eq_true, if_false, hb, if_true]
  cases hbt : Rancher.buildTCPServiceConfiguration service conf.tcp with
  | error e => simp
  | ok tcp1 => simp [hr, hm, hs]

/-- Witness for C9 at a concrete TCP-only rancher service. -/
theorem rancher_tcp_only_keeps_http_empty_witness :
    Rancher.processService Rancher.sampleProvider id id Rancher.sampleData
        Rancher.sampleTCPOnlyConf =
      (match Rancher.buildTCPServiceConfiguration Rancher.sampleData
          Rancher.sampleTCPOnlyConf.tcp with
       | .error _ => none
       | .ok tcp1 => some { Rancher.sampleTCPOnlyConf with tcp := id tcp1 }) :=
  rancher_tcp_only_keeps_http_empty Rancher.sampleProvider id id Rancher.sampleData
    Rancher.sampleTCPOnlyConf (by decide) (Or.inl (by decide)) (by decide) (by decide)
    (by decide)

/-- C10: `addServers` fails with exactly the error "port is missing" when
both the first declared load-balancer server's port and the port derived
from the service's `Port` field are empty; otherwise it succeeds and
replaces the pool with one server per container IP, each URL formed from
the first server's scheme and the resolved port. -/
theorem rancher_addServers_port_spec (service : Rancher.RancherData)
    (lb : Rancher.LoadBalancerService) :
    (Rancher.addServers service lb = .error "port is missing" ↔
      Rancher.getLBServerPort lb = "" ∧ Rancher.getServicePort service = "")
    ∧ (¬ (Rancher.getLBServerPort lb = "" ∧ Rancher.getServicePort service = "") →
      Rancher.addServers service lb =
        .ok { servers := service.containers.map (fun containerIP =>
                { url := Rancher.resolvedScheme lb ++ "://" ++
                    Rancher.joinHostPort containerIP (Rancher.resolvedPort service lb),
                  port := "", scheme := "" }) }) := by
  cases lb with
  | mk servers =>
    cases servers with
    | nil =>
      by_cases hp : Rancher.getServicePort service = "" <;>
        simp [Rancher.addServers, Rancher.getLBServerPort, Rancher.resolvedPort,
          Rancher.resolvedScheme, Rancher.zeroFirstPort, hp]
    | cons s rest =>
      by_cases hsp : s.port = "" <;>
        by_cases hp : Rancher.getServicePort service = "" <;>
          simp [Rancher.addServers, Rancher.getLBServerPort, Rancher.resolvedPort,
            Rancher.resolvedScheme, Rancher.zeroFirstPort, hsp, hp]

/-- Witness for C10: a service with port `80/tcp`, two containers and an
empty declared pool succeeds with one rebuilt server per container. -/
theorem rancher_addServers_port_spec_witness :
    Rancher.addServers Rancher.sampleData Rancher.sampleLB =
      .ok { servers := Rancher.sampleData.containers.map (fun containerIP =>
              { url := Rancher.resolvedScheme Rancher.sampleLB ++ "://" ++
                  Rancher.joinHostPort containerIP
                    (Rancher.resolvedPort Rancher.sampleData Rancher.sampleLB),
                port := "", scheme := "" }) } :=
  (rancher_addServers_port_spec Rancher.sampleData Rancher.sampleLB).2 (by decide)

namespace Traefik

/-- C2: for every request arriving at an entry point, the router selected is
the first one in sorted priority order whose compiled rule predicate
returns true, and that router's name is recorded as the `RouterName` field
of the access-log context; the sorted match structure is
priority-descending. -/
theorem router_selection_and_routername (c : Configuration) (ep : String) (req : Request)
    (pre : List Entry) (e : Entry) (post : List Entry)
    (hsplit : enabledRouters c ep = pre ++ e :: post)
    (hpre : ∀ x ∈ pre, matchesReq x.matcher req = false)
    (hmatch : matchesReq e.matcher req = true) :
    serve c ep req = { response := (entryHandle e req).1,
                       finalRequest := (entryHandle e req).2, routerName := some e.name }
    ∧ (enabledRouters c ep).Pairwise (fun a b => b.priority ≤ a.priority) := by
  constructor
  · unfold serve
    rw [hsplit, find?_append_cons (fun x => matchesReq x.matcher req) pre e post hpre hmatch]
  · unfold enabledRouters
    exact pairwise_sortEntries _

/-- Witness for C2: two routers matching `foo.bar` with priorities 10 and
20; the priority-20 handler serves and its name is logged. -/
theorem router_selection_and_routername_witness :
    serve priorityConfig "web" noCredsReq =
      { response := (entryHandle priorityTwentyEntry noCredsReq).1,
        finalRequest := (entryHandle priorityTwentyEntry noCredsReq).2,
        routerName := some priorityTwentyEntry.name }
    ∧ (enabledRouters priorityConfig "web").Pairwise (fun a b => b.priority ≤ a.priority) :=
  router_selection_and_routername priorityConfig "web" noCredsReq [] priorityTwentyEntry
    [priorityTenEntry] (by decide) (by decide) (by decide)

/-- C3: a router referencing a nonexistent service is annotated with an
error; router validation never reads the other routers and service
validation never reads the routers at all, so the rest of the snapshot is
unaffected; a request matching only the broken router's rule receives
404. -/
theorem unknown_service_disables_only_that_router (c : Configuration) (ep : String)
    (req : Request) (n : String) (r : Router)
    (hmem : (n, r) ∈ c.routers)
    (hall : ∀ p ∈ c.routers, p.1 = n → c.services.lookup (qualify n p.2.service) = none)
    (hothers : ∀ e ∈ enabledRouters c ep, e.name ≠ n → matchesReq e.matcher req = false) :
    (routerErr c n r).isSome
    ∧ (∀ rs n' r', routerErr { c with routers := rs } n' r' = routerErr c n' r')
    ∧ (∀ rs, ({ c with routers := rs } : Configuration).services.filter
          (fun p => (serviceErrOf p.2).isSome)
        = c.services.filter (fun p => (serviceErrOf p.2).isSome))
    ∧ (serve c ep req).response.status = 404 := by
  refine ⟨routerErr_isSome_of_lookup_none (hall (n, r) hmem rfl), ?_, ?_, ?_⟩
  · intro rs n' r'
    exact routerErr_frame c rs n' r'
  · intro rs
    cases c
    rfl
  · have hnone : (enabledRouters c ep).find? (fun e => matchesReq e.matcher req) = none := by
      rw [List.find?_eq_none]
      intro e he
      simp only [Bool.not_eq_true]
      by_cases hn : e.name = n
      · exfalso
        have he' : e ∈ buildEntries c ep := mem_sortEntries.mp he
        rcases entry_mem_buildEntries he' with ⟨p, hp, hok⟩
        have hpn : p.1 = n := by rw [← buildRouter_ok_name hok, hn]
        rcases buildRouter_ok_inv hok with ⟨m, ms, svc, lb, _, _, hl, _, _⟩
        rw [hpn] at hl
        rw [hall p hp hpn] at hl
        cases hl
      · exact hothers e he hn
    unfold serve
    rw [hnone]

/-- Witness for C3: router `foo` references `wrong-service`; a request to
its rule `Host(bar.foo)` receives 404. -/
theorem unknown_service_disables_only_that_router_witness :
    (serve unknownSvcConfig "web" barFooReq).response.status = 404 :=
  (unknown_service_disables_only_that_router unknownSvcConfig "web" barFooReq "foo"
    unknownSvcRouter (by decide) (by decide) (by decide)).2.2.2

/-- C4: a service definition with a missing load-balancer body is annotated
with an error, every router referring to it is annotated with an error,
and the broken-service snapshot of the tests carries exactly the two
errors: one on the service and one on its referring router. -/
theorem missing_lb_disables_service_and_routers (c : Configuration) (s : String)
    (svc : Service) (hs : c.services.lookup s = some svc) (hlb : svc.loadBalancer = none) :
    (serviceErrOf svc).isSome
    ∧ (∀ p ∈ c.routers, qualify p.1 p.2.service = s → (routerErr c p.1 p.2).isSome)
    ∧ errorCount brokenSvcConfig = 2 := by
  refine ⟨by simp [serviceErrOf, hlb], ?_, by decide⟩
  intro p hp hq
  exact routerErr_isSome_of_broken_service (by rw [hq]; exact hs) hlb

/-- Witness for C4 at the broken-service snapshot of the tests. -/
theorem missing_lb_disables_service_and_routers_witness :
    (routerErr brokenSvcConfig "bar" fooRouter).isSome ∧ errorCount brokenSvcConfig = 2 :=
  ⟨(missing_lb_disables_service_and_routers brokenSvcConfig "foo-service"
      { loadBalancer := none } (by decide) rfl).2.1 ("bar", fooRouter) (by decide) (by decide),
   (missing_lb_disables_service_and_routers brokenSvcConfig "foo-service"
      { loadBalancer := none } (by decide) rfl).2.2⟩

end Traefik

namespace Traefik

/-- Replacing an empty `entryPoints` list by the entry point itself changes
nothing in the entries built for that entry point. -/
theorem buildEntries_replace_entryPoints (svcs : List (String × Service))
    (mids : List (String × Middleware)) (pre post : List (String × Router))
    (n : String) (r : Router) (ep : String) (heps : r.entryPoints = []) :
    buildEntries { routers := pre ++ (n, { r with entryPoints := [ep] }) :: post,
                   services := svcs, middlewares := mids } ep
    = buildEntries { routers := pre ++ (n, r) :: post,
                     services := svcs, middlewares := mids } ep := by
  unfold buildEntries routersFor
  have hof : entryOf { routers := pre ++ (n, { r with entryPoints := [ep] }) :: post,
                       services := svcs, middlewares := mids }
      = entryOf { routers := pre ++ (n, r) :: post,
                  services := svcs, middlewares := mids } := by
    funext q
    rfl
  rw [hof]
  have hsel : selectRouter ep { r with entryPoints := [ep] } = true := by
    simp [selectRouter]
  have hsel0 : selectRouter ep r = true := by
    simp [selectRouter, heps]
  have hg : entryOf { routers := pre ++ (n, r) :: post, services := svcs, middlewares := mids }
        (n, { r with entryPoints := [ep] })
      = entryOf { routers := pre ++ (n, r) :: post, services := svcs, middlewares := mids }
        (n, r) := by
    unfold entryOf
    rw [buildRouter_entryPoints_irrel]
  rw [List.filter_append, List.filter_append]
  simp only [List.filter_cons, hsel, hsel0, if_true, List.filterMap_append,
    List.filterMap_cons, hg]

/-- C5: a router whose `EntryPoints` list is empty is collected for every
entry point, and requests are served exactly as if the router had listed
that entry point explicitly. -/
theorem empty_entrypoints_attach_everywhere (c : Configuration) (ep : String) (req : Request)
    (n : String) (r : Router) (pre post : List (String × Router))
    (heps : r.entryPoints = [])
    (hsplit : c.routers = pre ++ (n, r) :: post) :
    selectRouter ep r = true
    ∧ serve c ep req =
        serve { c with routers := pre ++ (n, { r with entryPoints := [ep] }) :: post } ep req := by
  constructor
  · simp [selectRouter, heps]
  · obtain ⟨rs, svcs, mids⟩ := c
    dsimp only at hsplit
    subst hsplit
    unfold serve enabledRouters
    rw [buildEntries_replace_entryPoints svcs mids pre post n r ep heps]

/-- Witness for C5: the router with no declared entry point serves `web`
exactly as the same router listing `web` would. -/
theorem empty_entrypoints_attach_everywhere_witness :
    selectRouter "web" defaultEpRouter = true
    ∧ serve defaultEpConfig "web" noCredsReq =
        serve
          { defaultEpConfig with routers :=
              [] ++ ("foo", { defaultEpRouter with entryPoints := ["web"] }) :: [] }
          "web" noCredsReq :=
  empty_entrypoints_attach_everywhere defaultEpConfig "web" noCredsReq "foo" defaultEpRouter
    [] [] rfl rfl

/-- A router's runtime error is absent exactly when it builds. -/
theorem routerErr_eq_none_iff_ok {c : Configuration} {n : String} {r : Router} :
    routerErr c n r = none ↔ ∃ e, buildRouter c n r = .ok e := by
  unfold routerErr
  cases hb : buildRouter c n r with
  | error err => simp
  | ok e => simp

/-- A router all of whose validation inputs resolve builds successfully, so
it carries no error. -/
theorem routerErr_none_of_all_valid {c : Configuration} {p : String × Router}
    (hsvc : ∀ q ∈ c.services, (Service.loadBalancer q.2).isSome = true)
    (href : (c.services.lookup (qualify p.1 p.2.service)).isSome = true)
    (hmid : (resolveMiddlewares c.middlewares p.1 p.2.middlewares).isSome = true)
    (hok : (compileRule p.2.rule).isOk = true) :
    routerErr c p.1 p.2 = none := by
  rcases Option.isSome_iff_exists.mp hmid with ⟨ms, hms⟩
  rcases Option.isSome_iff_exists.mp href with ⟨svc, hsvcEq⟩
  have hmemSvc : (qualify p.1 p.2.service, svc) ∈ c.services := by
    rcases List.lookup_eq_some_iff.mp hsvcEq with ⟨l₁, l₂, hEq, _⟩
    rw [hEq]
    exact List.mem_append_right _ (List.mem_cons_self _ _)
  rcases Option.isSome_iff_exists.mp (hsvc _ hmemSvc) with ⟨lb, hlbEq⟩
  cases hcr : compileRule p.2.rule with
  | error err => rw [hcr] at hok; simp [Except.isOk, Except.toBool] at hok
  | ok m =>
    rw [routerErr_eq_none_iff_ok]
    exact ⟨_, buildRouter_ok_of hcr hms hsvcEq hlbEq⟩

/-- C7: when every service has a load balancer and every reference
resolves, a router is annotated with an error exactly when its rule fails
to compile, the number of errored elements equals the number of routers
with failing rules, and every sibling with a compiling rule still
contributes an entry to the match structure. -/
theorem rule_error_local_to_router (c : Configuration) (ep : String)
    (hsvc : ∀ p ∈ c.services, (Service.loadBalancer p.2).isSome = true)
    (href : ∀ p ∈ c.routers, (c.services.lookup (qualify p.1 p.2.service)).isSome = true)
    (hmid : ∀ p ∈ c.routers,
      (resolveMiddlewares c.middlewares p.1 p.2.middlewares).isSome = true) :
    (∀ p ∈ c.routers, ((routerErr c p.1 p.2).isSome ↔ (compileRule p.2.rule).isOk = false))
    ∧ errorCount c = (c.routers.filter (fun p => !(compileRule p.2.rule).isOk)).length
    ∧ (∀ p ∈ routersFor c ep, (compileRule p.2.rule).isOk = true →
        ∃ e ∈ buildEntries c ep, e.name = p.1) := by
  have hpoint : ∀ p ∈ c.routers, (routerErr c p.1 p.2).isSome = !(compileRule p.2.rule).isOk := by
    intro p hp
    cases hcr : compileRule p.2.rule with
    | error err =>
      have hb := buildRouter_error_of_rule (c := c) (n := p.1) hcr
      simp [routerErr, hb, Except.isOk, Except.toBool]
    | ok m =>
      have hnone := routerErr_none_of_all_valid (p := p) hsvc (href p hp) (hmid p hp)
        (by simp [hcr, Except.isOk, Except.toBool])
      simp [hnone, Except.isOk, Except.toBool]
  refine ⟨?_, ?_, ?_⟩
  · intro p hp
    rw [hpoint p hp]
    cases (compileRule p.2.rule).isOk <;> simp
  · have hserv : c.services.filter (fun q => (serviceErrOf q.2).isSome) = [] := by
      rw [List.filter_eq_nil_iff]
      intro q hq
      rcases Option.isSome_iff_exists.mp (hsvc q hq) with ⟨lb, hlb⟩
      simp [serviceErrOf, hlb]
    unfold errorCount
    rw [hserv, List.filter_congr hpoint]
    simp
  · intro p hp hok
    have hp' : p ∈ c.routers := (List.mem_filter.mp hp).1
    rcases Option.isSome_iff_exists.mp (hmid p hp') with ⟨ms, hms⟩
    rcases Option.isSome_iff_exists.mp (href p hp') with ⟨svc, hsvcEq⟩
    have hmemSvc : (qualify p.1 p.2.service, svc) ∈ c.services := by
      rcases List.lookup_eq_some_iff.mp hsvcEq with ⟨l₁, l₂, hEq, _⟩
      rw [hEq]
      exact List.mem_append_right _ (List.mem_cons_self _ _)
    rcases Option.isSome_iff_exists.mp (hsvc _ hmemSvc) with ⟨lb, hlbEq⟩
    cases hcr : compileRule p.2.rule with
    | error err => rw [hcr] at hok; simp [Except.isOk, Except.toBool] at hok
    | ok m =>
      have hb := buildRouter_ok_of hcr hms hsvcEq hlbEq
      refine ⟨{ name := p.1, priority := effPriority p.2, rule := p.2.rule, matcher := m,
                middlewares := ms, servers := lb.servers }, ?_, rfl⟩
      unfold buildEntries
      exact List.mem_filterMap.mpr ⟨p, hp, by unfold entryOf; rw [hb]⟩

/-- Witness for C7: one router with the unknown matcher `WrongRule` and one
intact sibling; the errored elements are exactly the failing-rule
routers. -/
theorem rule_error_local_to_router_witness :
    errorCount wrongRuleConfig =
      (wrongRuleConfig.routers.filter (fun p => !(compileRule p.2.rule).isOk)).length :=
  (rule_error_local_to_router wrongRuleConfig "web" (by decide) (by decide) (by decide)).2.1

end Traefik
